import Mathlib

/-!
# Router-route and load-balancer resource hooks

A shallow embedding of the create / read / delete hooks of
`resource_flexibleengine_networking_router_route_v2.go` and of the update /
delete hooks of `resource_flexibleengine_lb_loadbalancer_v2.go`.

The hooks talk to collaborators that live outside these files (the cloud SDK,
the client factory, the convergence poller, the retry wrapper).  Every call to
such a collaborator is modelled by an oracle value: a field of an environment
record that says what that particular call returned.  The hooks are pure
functions from the declared configuration and the environment to the returned
error, the written-back resource data and the sequence of outbound calls
(the trace).  Logging has no effect on behaviour and is left out.
-/

namespace RouterRoute

/-- The SDK type `routers.Route`. -/
structure Route where
  DestinationCIDR : String
  NextHop : String
deriving DecidableEq, Repr

/-- The attributes of `schema.ResourceData` that the route hooks touch. -/
structure ResourceData where
  id : String
  region : String
  router_id : String
  destination_cidr : String
  next_hop : String
deriving DecidableEq, Repr

/-- Go's `d.SetId(v)`. -/
def ResourceData.SetId (d : ResourceData) (v : String) : ResourceData :=
  { d with id := v }

/-- The `config` argument: the only thing the hooks ask of it besides a client
is the region, through the helper `GetRegion(d, config)`, which lives in
another file and is taken as a parameter. -/
structure Config where
  GetRegion : ResourceData → String

/-- What `routers.Get(client, id).Extract()` returned. -/
inductive GetResult where
  /-- The call returned a router; `routes` is its field `Routes`. -/
  | found (routes : List Route)
  /-- The call returned an error of type `golangsdk.ErrDefault404`. -/
  | notFound (msg : String)
  /-- The call returned any other error. -/
  | failed (msg : String)
deriving DecidableEq, Repr

/-- Outbound calls of a hook, in the order they are issued. -/
inductive Event where
  | lock (key : String)
  | unlock (key : String)
  | newClient (region : String)
  | get (routerId : String)
  | update (routerId : String) (routes : List Route)
deriving DecidableEq, Repr

/-- Result of one hook run: the returned Go `error` (`none` is `nil`), the
resource data as the hook leaves it, and the outbound calls it made. -/
structure Outcome where
  err : Option String
  d : ResourceData
  trace : List Event
deriving DecidableEq, Repr

/-- Puts the calls made so far in front of the calls of a sub-run. -/
def Outcome.after (t : List Event) (o : Outcome) : Outcome :=
  { o with trace := t ++ o.trace }

/-- What the calls of `resourceNetworkingRouterRouteV2Read` returned. -/
structure ReadEnv where
  client : Option String
  get : GetResult
deriving DecidableEq, Repr

/-- What the calls of `resourceNetworkingRouterRouteV2Create` returned; `read`
belongs to the read the hook ends with. -/
structure CreateEnv where
  client : Option String
  get : GetResult
  update : Option String
  read : ReadEnv
deriving DecidableEq, Repr

/-- What the calls of `resourceNetworkingRouterRouteV2Delete` returned. -/
structure DeleteEnv where
  client : Option String
  get : GetResult
  update : Option String
deriving DecidableEq, Repr

/-- The search loop of the create hook (lines 74-80): `true` as soon as a
route with both fields equal is met. -/
def routeExists (destCidr nextHop : String) : List Route → Bool
  | [] => false
  | r :: rest =>
    if r.DestinationCIDR = destCidr ∧ r.NextHop = nextHop then true
    else routeExists destCidr nextHop rest

/-- The loop of the read hook (lines 136-143): at the first matching route the
two attributes are written back and the loop is left. -/
def readLoop (destCidr nextHop : String) (d : ResourceData) : List Route → ResourceData
  | [] => d
  | r :: rest =>
    if r.DestinationCIDR = destCidr ∧ r.NextHop = nextHop then
      { d with destination_cidr := destCidr, next_hop := nextHop }
    else readLoop destCidr nextHop d rest

/-- The loop of the delete hook (lines 178-185): `newRts` starts empty and
every route that differs in one of the two fields is appended to it. -/
def filterRoutes (destCidr nextHop : String) (oldRts : List Route) : List Route :=
  oldRts.foldl
    (fun newRts r =>
      if r.DestinationCIDR ≠ destCidr ∨ r.NextHop ≠ nextHop then newRts ++ [r] else newRts)
    []

/-- The hook `resourceNetworkingRouterRouteV2Read`. -/
def resourceNetworkingRouterRouteV2Read (config : Config) (env : ReadEnv)
    (d : ResourceData) : Outcome :=
  let routerId := d.router_id
  let t0 := [Event.newClient (config.GetRegion d)]
  match env.client with
  | some err => ⟨some ("Error creating FlexibleEngine networking client: " ++ err), d, t0⟩
  | none =>
    let t1 := t0 ++ [Event.get routerId]
    match env.get with
    | .notFound _ => ⟨none, d.SetId "", t1⟩
    | .failed err => ⟨some ("Error retrieving FlexibleEngine Neutron Router: " ++ err), d, t1⟩
    | .found routes =>
      let destCidr := d.destination_cidr
      let nextHop := d.next_hop
      let d1 := { d with next_hop := "" }
      let d2 := { d1 with destination_cidr := "" }
      let d3 := readLoop destCidr nextHop d2 routes
      let d4 := { d3 with region := config.GetRegion d3 }
      ⟨none, d4, t1⟩

/-- The body of `resourceNetworkingRouterRouteV2Create` between taking the lock
and the deferred unlock (lines 51-105). -/
def createBody (config : Config) (env : CreateEnv) (d : ResourceData) : Outcome :=
  let routerId := d.router_id
  let destCidr := d.destination_cidr
  let nextHop := d.next_hop
  let t0 := [Event.newClient (config.GetRegion d)]
  match env.client with
  | some err => ⟨some ("Error creating FlexibleEngine networking client: " ++ err), d, t0⟩
  | none =>
    let t1 := t0 ++ [Event.get routerId]
    match env.get with
    | .notFound _ => ⟨none, d.SetId "", t1⟩
    | .failed err => ⟨some ("Error retrieving FlexibleEngine Neutron Router: " ++ err), d, t1⟩
    | .found routes =>
      if !routeExists destCidr nextHop routes then
        let rts :=
          if destCidr ≠ "" ∧ nextHop ≠ "" then routes ++ [⟨destCidr, nextHop⟩] else routes
        let t2 := t1 ++ [Event.update routerId rts]
        match env.update with
        | some err => ⟨some ("Error updating FlexibleEngine Neutron Router: " ++ err), d, t2⟩
        | none =>
          let d1 := d.SetId (routerId ++ "-route-" ++ destCidr ++ "-" ++ nextHop)
          (resourceNetworkingRouterRouteV2Read config env.read d1).after t2
      else
        (resourceNetworkingRouterRouteV2Read config env.read d).after t1

/-- The hook `resourceNetworkingRouterRouteV2Create`: `osMutexKV.Lock(routerId)`,
the body, and the deferred `osMutexKV.Unlock(routerId)`, which runs when the
body returns, whatever it returns. -/
def resourceNetworkingRouterRouteV2Create (config : Config) (env : CreateEnv)
    (d : ResourceData) : Outcome :=
  let routerId := d.router_id
  let o := createBody config env d
  { o with trace := [Event.lock routerId] ++ o.trace ++ [Event.unlock routerId] }

/-- The body of `resourceNetworkingRouterRouteV2Delete` between taking the lock
and the deferred unlock (lines 156-203). -/
def deleteBody (config : Config) (env : DeleteEnv) (d : ResourceData) : Outcome :=
  let routerId := d.router_id
  let t0 := [Event.newClient (config.GetRegion d)]
  match env.client with
  | some err => ⟨some ("Error creating FlexibleEngine networking client: " ++ err), d, t0⟩
  | none =>
    let t1 := t0 ++ [Event.get routerId]
    match env.get with
    | .notFound _ => ⟨none, d, t1⟩
    | .failed err => ⟨some ("Error retrieving FlexibleEngine Neutron Router: " ++ err), d, t1⟩
    | .found oldRts =>
      let destCidr := d.destination_cidr
      let nextHop := d.next_hop
      let newRts := filterRoutes destCidr nextHop oldRts
      if oldRts.length ≠ newRts.length then
        let t2 := t1 ++ [Event.update routerId newRts]
        match env.update with
        | some err => ⟨some ("Error updating FlexibleEngine Neutron Router: " ++ err), d, t2⟩
        | none => ⟨none, d, t2⟩
      else
        ⟨some "Route did not exist already", d, t1⟩

/-- The hook `resourceNetworkingRouterRouteV2Delete`, with its lock and
deferred unlock. -/
def resourceNetworkingRouterRouteV2Delete (config : Config) (env : DeleteEnv)
    (d : ResourceData) : Outcome :=
  let routerId := d.router_id
  let o := deleteBody config env d
  { o with trace := [Event.lock routerId] ++ o.trace ++ [Event.unlock routerId] }

/-- The route lists of the whole-list update calls in a trace, in order. -/
def submitted : List Event → List (List Route)
  | [] => []
  | Event.update _ routes :: rest => routes :: submitted rest
  | _ :: rest => submitted rest

/-- Whether an event is a call to the provider API (fetch or update). -/
def Event.isRemote : Event → Bool
  | .get _ => true
  | .update _ _ => true
  | _ => false

/-- Whether an event takes or releases a lock. -/
def Event.isLocking : Event → Bool
  | .lock _ => true
  | .unlock _ => true
  | _ => false

/-- Replays a trace against the lock keyed by `key`: `held` says whether the
lock is held before the first event.  The result is `none` when a remote call
is issued while the lock is not held, when the lock is taken while held, or
when it is released while not held; otherwise it says whether the lock is held
after the last event. -/
def lockDiscipline (key : String) : Bool → List Event → Option Bool
  | held, [] => some held
  | held, Event.lock k :: rest =>
    if k = key then (if held then none else lockDiscipline key true rest)
    else lockDiscipline key held rest
  | held, Event.unlock k :: rest =>
    if k = key then (if held then lockDiscipline key false rest else none)
    else lockDiscipline key held rest
  | held, e :: rest =>
    if e.isRemote && !held then none else lockDiscipline key held rest

end RouterRoute

namespace LoadBalancer

/-- What the load-balancer hooks ask of `schema.ResourceData`: the resource
ID, the attribute `vip_port_id`, `d.HasChange(key)` and whether
`d.GetOk("security_group_ids")` reports the attribute as set. -/
structure ResourceData where
  id : String
  vip_port_id : String
  HasChange : String → Bool
  security_group_ids_ok : Bool

/-- Go's variadic `d.HasChanges(keys...)`: some key has a change. -/
def ResourceData.HasChanges (d : ResourceData) (keys : List String) : Bool :=
  keys.any d.HasChange

/-- What the calls of `resourceLoadBalancerV2Read` returned.  `get` is the
error of `loadbalancers.Get`, `checkDeleted` what the helper `CheckDeleted`
(another file) makes of that error, and `vipPortID` the field `VipPortID` of
the fetched load balancer. -/
structure ReadEnv where
  client : Option String
  get : Option String
  checkDeleted : Option String
  vipPortID : String
  networkingClient : Option String
  portsGet : Option String
  setSecurityGroups : Option String
  tagsGet : Option String

/-- What the calls of `resourceLoadBalancerV2Update` returned.  `waitBefore`
and `waitAfter` are the two runs of the convergence poller
`waitForLBV2LoadBalancer`; `retryUpdate` is what `resource.Retry` returned for
the closure around `loadbalancers.Update`. -/
structure UpdateEnv where
  client : Option String
  waitBefore : Option String
  retryUpdate : Option String
  waitAfter : Option String
  networkingClient : Option String
  portsUpdate : Option String
  updateTags : Option String
  read : ReadEnv

/-- What the calls of `resourceLoadBalancerV2Delete` returned: `retryDelete`
is what `resource.Retry` returned for the closure around
`loadbalancers.Delete`, `wait` the run of the convergence poller. -/
structure DeleteEnv where
  client : Option String
  retryDelete : Option String
  wait : Option String

/-- The helper `resourceLoadBalancerV2SecurityGroups`: the port is updated
only when `security_group_ids` is set, and the error of `ports.Update` is
returned as it is. -/
def resourceLoadBalancerV2SecurityGroups (portsUpdate : Option String)
    (d : ResourceData) : Option String :=
  if d.security_group_ids_ok then
    match portsUpdate with
    | some err => some err
    | none => none
  else none

/-- The hook `resourceLoadBalancerV2Read`, reduced to the error it returns. -/
def resourceLoadBalancerV2Read (env : ReadEnv) (d : ResourceData) : Option String :=
  match env.client with
  | some err => some ("Error creating FlexibleEngine ELB v2.0 client: " ++ err)
  | none =>
    match env.get with
    | some _ => env.checkDeleted
    | none =>
      let afterPort : Option String :=
        if env.vipPortID ≠ "" then
          match env.networkingClient with
          | some err => some ("Error creating FlexibleEngine networking client: " ++ err)
          | none =>
            match env.portsGet with
            | some err => some err
            | none =>
              match env.setSecurityGroups with
              | some err =>
                some ("[DEBUG] Error saving security_group_ids to state for FlexibleEngine loadbalancer ("
                  ++ d.id ++ "): " ++ err)
              | none => none
        else none
      match afterPort with
      | some err => some err
      | none =>
        -- a failed tag fetch is only logged
        match env.tagsGet with
        | some _ => none
        | none => none

/-- The hook `resourceLoadBalancerV2Update`, reduced to the error it returns.
Line 255 stores the result of `resource.Retry` in `err`; line 264 stores the
result of the poller in the same variable, and only that one is tested. -/
def resourceLoadBalancerV2Update (env : UpdateEnv) (d : ResourceData) : Option String :=
  match env.client with
  | some err => some ("Error creating FlexibleEngine ELB v2.0 client: " ++ err)
  | none =>
    match env.waitBefore with
    | some err => some err
    | none =>
      let afterUpdate : Option String :=
        if d.HasChanges ["name", "description", "admin_state_up"] then
          let _retryErr := env.retryUpdate
          let err := env.waitAfter
          match err with
          | some e => some e
          | none => none
        else none
      match afterUpdate with
      | some err => some err
      | none =>
        let afterGroups : Option String :=
          if d.HasChange "security_group_ids" then
            if d.vip_port_id ≠ "" then
              match env.networkingClient with
              | some err => some ("Error creating FlexibleEngine networking client: " ++ err)
              | none => resourceLoadBalancerV2SecurityGroups env.portsUpdate d
            else none
          else none
        match afterGroups with
        | some err => some err
        | none =>
          let afterTags : Option String :=
            if d.HasChange "tags" then
              match env.updateTags with
              | some tagErr =>
                some ("Error updating tags of load balancer:" ++ d.id ++ ", err:" ++ tagErr)
              | none => none
            else none
          match afterTags with
          | some err => some err
          | none => resourceLoadBalancerV2Read env.read d

/-- The hook `resourceLoadBalancerV2Delete`, reduced to the error it returns.
Line 305 stores the result of `resource.Retry` in `err`; line 315 stores the
result of the poller in the same variable, and only that one is tested. -/
def resourceLoadBalancerV2Delete (env : DeleteEnv) (_d : ResourceData) : Option String :=
  match env.client with
  | some err => some ("Error creating FlexibleEngine ELB v2.0 client: " ++ err)
  | none =>
    let _retryErr := env.retryDelete
    let err := env.wait
    match err with
    | some e => some e
    | none => none

/-! ## Concrete inputs used to exercise the hooks -/

/-- A load balancer whose declared `name` changed. -/
def exData : ResourceData := ⟨"lb-1", "port-1", fun key => key == "name", true⟩

/-- Every call of the read hook succeeds. -/
def exReadEnv : ReadEnv := ⟨none, none, none, "port-1", none, none, none, none⟩

/-- The update call ends in an error after the retry wrapper (a request the
API rejects is not retried); the poller finds the load balancer ACTIVE both
times and every other call succeeds. -/
def exUpdateEnv : UpdateEnv :=
  ⟨none, none, some "Bad request with: [PUT /v2.0/lbaas/loadbalancers/lb-1]", none, none, none,
    none, exReadEnv⟩

/-- The delete call ends in an error after the retry wrapper (the API answers
that the load balancer does not exist), and the poller, whose target is
DELETED, reports success. -/
def exDeleteEnv : DeleteEnv :=
  ⟨none, some "Resource not found: [DELETE /v2.0/lbaas/loadbalancers/lb-1]", none⟩

end LoadBalancer

namespace RouterRoute

/-! ## Concrete inputs used to exercise the hooks -/

/-- A configuration whose region helper answers with the declared region. -/
def exConfig : Config := ⟨fun d => d.region⟩

/-- A route already held by the example router. -/
def exRoute : Route := ⟨"10.0.0.0/24", "192.168.0.1"⟩

/-- The route the example configuration declares. -/
def exNewRoute : Route := ⟨"10.2.0.0/24", "192.168.0.3"⟩

/-- Declared configuration for the route `exNewRoute` on router `router-1`. -/
def exData : ResourceData := ⟨"", "eu-west-0", "router-1", "10.2.0.0/24", "192.168.0.3"⟩

/-- Declared configuration with an empty `destination_cidr`. -/
def exEmptyCidrData : ResourceData := ⟨"", "eu-west-0", "router-1", "", "192.168.0.3"⟩

/-- Declared configuration for the route `exRoute`, which the router holds. -/
def exHeldData : ResourceData :=
  ⟨"router-1-route-10.0.0.0/24-192.168.0.1", "eu-west-0", "router-1", "10.0.0.0/24", "192.168.0.1"⟩

/-- Every call succeeds and the router holds `[exRoute]`; the trailing read
sees the same list. -/
def exCreateEnv : CreateEnv := ⟨none, .found [exRoute], none, ⟨none, .found [exRoute]⟩⟩

/-- Every call succeeds and the router holds `[exRoute]`. -/
def exReadEnv : ReadEnv := ⟨none, .found [exRoute]⟩

/-- Every call succeeds and the router holds `[exRoute]`. -/
def exDeleteEnv : DeleteEnv := ⟨none, .found [exRoute], none⟩

/-- The router holds `[exRoute]` and the calls of the hook succeed, but the
fetch of the trailing read is answered with a server error. -/
def exCreateReadFailsEnv : CreateEnv :=
  ⟨none, .found [exRoute], none, ⟨none, .failed "Internal Server Error"⟩⟩

/-- Every call succeeds and the router holds `[exRoute, exNewRoute]`. -/
def exDeleteAfterCreateEnv : DeleteEnv := ⟨none, .found [exRoute, exNewRoute], none⟩

/-- The fetch of the read hook is answered with a 404. -/
def exReadNotFoundEnv : ReadEnv := ⟨none, .notFound "Resource not found"⟩

/-! ## Helper lemmas on the loops -/

theorem route_eq_iff (r : Route) (c h : String) :
    r = ⟨c, h⟩ ↔ r.DestinationCIDR = c ∧ r.NextHop = h := by
  cases r
  simp

theorem routeExists_iff_mem (c h : String) (L : List Route) :
    routeExists c h L = true ↔ (⟨c, h⟩ : Route) ∈ L := by
  induction L with
  | nil => simp [routeExists]
  | cons r rest ih =>
    unfold routeExists
    by_cases hr : r.DestinationCIDR = c ∧ r.NextHop = h
    · have hreq : r = ⟨c, h⟩ := (route_eq_iff r c h).2 hr
      simp [hr, hreq]
    · have hne : ¬ ((⟨c, h⟩ : Route) = r) := fun e => hr ((route_eq_iff r c h).1 e.symm)
      simp [hr, ih, hne]

theorem routeExists_eq_false_iff (c h : String) (L : List Route) :
    routeExists c h L = false ↔ (⟨c, h⟩ : Route) ∉ L := by
  rw [← routeExists_iff_mem]
  simp

theorem filterLoop_acc (c h : String) (L acc : List Route) :
    L.foldl
      (fun newRts r =>
        if r.DestinationCIDR ≠ c ∨ r.NextHop ≠ h then newRts ++ [r] else newRts)
      acc
    = acc ++ L.filter (fun r => decide (r ≠ (⟨c, h⟩ : Route))) := by
  induction L generalizing acc with
  | nil => simp
  | cons r rest ih =>
    rw [List.foldl_cons, ih]
    by_cases hr : r.DestinationCIDR = c ∧ r.NextHop = h
    · have hreq : r = ⟨c, h⟩ := (route_eq_iff r c h).2 hr
      simp [hr, hreq]
    · have hne : r ≠ ⟨c, h⟩ := fun e => hr ((route_eq_iff r c h).1 e)
      have hcond : r.DestinationCIDR ≠ c ∨ r.NextHop ≠ h := by
        by_contra hcon
        push_neg at hcon
        exact hr hcon
      simp [hcond, hne]

theorem filterRoutes_eq_filter (c h : String) (L : List Route) :
    filterRoutes c h L = L.filter (fun r => decide (r ≠ (⟨c, h⟩ : Route))) := by
  unfold filterRoutes
  rw [filterLoop_acc]
  simp

theorem not_mem_filterRoutes (c h : String) (L : List Route) :
    (⟨c, h⟩ : Route) ∉ filterRoutes c h L := by
  rw [filterRoutes_eq_filter]
  simp

theorem filterRoutes_length_add_count (c h : String) (L : List Route) :
    (filterRoutes c h L).length + L.count (⟨c, h⟩ : Route) = L.length := by
  rw [filterRoutes_eq_filter]
  induction L with
  | nil => simp
  | cons r rest ih =>
    by_cases hr : r = ⟨c, h⟩
    · subst hr
      simp at ih ⊢
      omega
    · have hne : ¬ ((⟨c, h⟩ : Route) = r) := fun e => hr e.symm
      simp [hr, List.count_cons, hne] at ih ⊢
      omega

theorem filterRoutes_of_not_mem (c h : String) (L : List Route)
    (hnot : (⟨c, h⟩ : Route) ∉ L) : filterRoutes c h L = L := by
  rw [filterRoutes_eq_filter, List.filter_eq_self]
  intro r hr
  simp only [decide_eq_true_eq]
  intro e
  exact hnot (e ▸ hr)

theorem filterRoutes_length_eq_iff (c h : String) (L : List Route) :
    L.length = (filterRoutes c h L).length ↔ (⟨c, h⟩ : Route) ∉ L := by
  have hlen := filterRoutes_length_add_count c h L
  rw [← List.count_eq_zero]
  omega

theorem readLoop_of_mem (c h : String) (d : ResourceData) (L : List Route)
    (hin : (⟨c, h⟩ : Route) ∈ L) :
    readLoop c h d L = { d with destination_cidr := c, next_hop := h } := by
  induction L with
  | nil => simp at hin
  | cons r rest ih =>
    unfold readLoop
    by_cases hr : r.DestinationCIDR = c ∧ r.NextHop = h
    · simp [hr]
    · have hne : ¬ ((⟨c, h⟩ : Route) = r) := fun e => hr ((route_eq_iff r c h).1 e.symm)
      have hrest : (⟨c, h⟩ : Route) ∈ rest := by
        rcases List.mem_cons.1 hin with e | hm
        · exact absurd e hne
        · exact hm
      simp [hr, ih hrest]

theorem readLoop_of_not_mem (c h : String) (d : ResourceData) (L : List Route)
    (hnot : (⟨c, h⟩ : Route) ∉ L) : readLoop c h d L = d := by
  induction L with
  | nil => rfl
  | cons r rest ih =>
    unfold readLoop
    have hr : ¬ (r.DestinationCIDR = c ∧ r.NextHop = h) := fun hr =>
      hnot (by rw [(route_eq_iff r c h).2 hr]; exact List.mem_cons_self _ _)
    have hrest : (⟨c, h⟩ : Route) ∉ rest := fun hm => hnot (List.mem_cons_of_mem _ hm)
    simp [hr, ih hrest]

theorem update_error_ne_route_missing (e : String) :
    "Error updating FlexibleEngine Neutron Router: " ++ e ≠ "Route did not exist already" := by
  intro h
  have h2 := congrArg String.data h
  rw [String.data_append] at h2
  have h3 := congrArg List.head? h2
  simp at h3

theorem submitted_append (s t : List Event) : submitted (s ++ t) = submitted s ++ submitted t := by
  induction s with
  | nil => rfl
  | cons e rest ih => cases e <;> simp [submitted, ih]

theorem submitted_read (config : Config) (env : ReadEnv) (d : ResourceData) :
    submitted (resourceNetworkingRouterRouteV2Read config env d).trace = [] := by
  unfold resourceNetworkingRouterRouteV2Read
  cases env.client <;> cases env.get <;> simp [submitted]

/-! ## Route add -/

/-- C1, as stated, fails: with an empty `destination_cidr` the pair is not in
the fetched list `[exRoute]`, yet the single update the create hook issues
carries the fetched list itself, not the list with the pair appended, and a
read against a router holding the submitted list reports an empty `next_hop`
instead of the declared one. -/
theorem create_empty_cidr_submits_fetched_list :
    exCreateEnv.client = none ∧ exCreateEnv.get = .found [exRoute] ∧
    (⟨exEmptyCidrData.destination_cidr, exEmptyCidrData.next_hop⟩ : Route) ∉ [exRoute] ∧
    submitted (resourceNetworkingRouterRouteV2Create exConfig exCreateEnv exEmptyCidrData).trace
      = [[exRoute]] ∧
    submitted (resourceNetworkingRouterRouteV2Create exConfig exCreateEnv exEmptyCidrData).trace
      ≠ [[exRoute] ++ [⟨exEmptyCidrData.destination_cidr, exEmptyCidrData.next_hop⟩]] ∧
    ([exRoute] : List Route).length ≠ ([exRoute] : List Route).length + 1 ∧
    (resourceNetworkingRouterRouteV2Read exConfig exReadEnv exEmptyCidrData).d.next_hop
      ≠ exEmptyCidrData.next_hop := by
  decide

/-- The update calls of the create hook when the router is found, the
declared pair is not in the fetched list and both attributes are non-empty. -/
theorem create_submitted_of_absent (config : Config) (env : CreateEnv) (d : ResourceData)
    (L : List Route) (hclient : env.client = none) (hget : env.get = .found L)
    (habsent : (⟨d.destination_cidr, d.next_hop⟩ : Route) ∉ L)
    (hcidr : d.destination_cidr ≠ "") (hhop : d.next_hop ≠ "") :
    submitted (resourceNetworkingRouterRouteV2Create config env d).trace
      = [L ++ [⟨d.destination_cidr, d.next_hop⟩]] := by
  have hex : routeExists d.destination_cidr d.next_hop L = false :=
    (routeExists_eq_false_iff _ _ _).2 habsent
  unfold resourceNetworkingRouterRouteV2Create createBody
  simp only [hclient, hget, hex]
  cases env.update with
  | some e => simp [submitted, submitted_append, hcidr, hhop]
  | none =>
    simp [submitted, submitted_append, hcidr, hhop, Outcome.after, submitted_read]

/-- C1, amended: when the fetched list `L` does not contain the declared pair
and both `destination_cidr` and `next_hop` are non-empty, the create hook
issues exactly one whole-list update, its route list is `L` with the pair
appended, of length `len(L) + 1`, and a read of the same pair against a router
holding that list succeeds and reports the pair. -/
theorem create_appends_absent_route (config : Config) (env : CreateEnv) (d : ResourceData)
    (L : List Route) (hclient : env.client = none) (hget : env.get = .found L)
    (habsent : (⟨d.destination_cidr, d.next_hop⟩ : Route) ∉ L)
    (hcidr : d.destination_cidr ≠ "") (hhop : d.next_hop ≠ "") :
    submitted (resourceNetworkingRouterRouteV2Create config env d).trace
      = [L ++ [⟨d.destination_cidr, d.next_hop⟩]] ∧
    (L ++ [(⟨d.destination_cidr, d.next_hop⟩ : Route)]).length = L.length + 1 ∧
    ∀ (renv : ReadEnv) (d0 : ResourceData), renv.client = none →
      renv.get = .found (L ++ [⟨d.destination_cidr, d.next_hop⟩]) →
      d0.destination_cidr = d.destination_cidr → d0.next_hop = d.next_hop →
      (resourceNetworkingRouterRouteV2Read config renv d0).err = none ∧
      (resourceNetworkingRouterRouteV2Read config renv d0).d.destination_cidr
        = d.destination_cidr ∧
      (resourceNetworkingRouterRouteV2Read config renv d0).d.next_hop = d.next_hop := by
  refine ⟨create_submitted_of_absent config env d L hclient hget habsent hcidr hhop,
    by simp, ?_⟩
  · intro renv d0 hrc hrg hc0 hh0
    have hin : (⟨d.destination_cidr, d.next_hop⟩ : Route)
        ∈ L ++ [⟨d.destination_cidr, d.next_hop⟩] := by simp
    unfold resourceNetworkingRouterRouteV2Read
    simp only [hrc, hrg, hc0, hh0]
    rw [readLoop_of_mem _ _ _ _ hin]
    simp

/-- Witness for C1 (amended): the declared route `exNewRoute` is added to a
router holding `[exRoute]`. -/
theorem create_appends_absent_route_witness :
    submitted (resourceNetworkingRouterRouteV2Create exConfig exCreateEnv exData).trace
      = [[exRoute, exNewRoute]] :=
  (create_appends_absent_route exConfig exCreateEnv exData [exRoute] rfl rfl
    (by decide) (by decide) (by decide)).1

/-- C2, as stated, fails: the fetched list `[exRoute]` contains the declared
pair and the create hook issues no update call, but the fetch of its trailing
read is answered with a server error, and the hook returns that error instead
of success. -/
theorem create_present_trailing_read_fails :
    exCreateReadFailsEnv.client = none ∧ exCreateReadFailsEnv.get = .found [exRoute] ∧
    (⟨exHeldData.destination_cidr, exHeldData.next_hop⟩ : Route) ∈ [exRoute] ∧
    submitted
      (resourceNetworkingRouterRouteV2Create exConfig exCreateReadFailsEnv exHeldData).trace
      = [] ∧
    (resourceNetworkingRouterRouteV2Create exConfig exCreateReadFailsEnv exHeldData).err
      = some "Error retrieving FlexibleEngine Neutron Router: Internal Server Error" ∧
    (resourceNetworkingRouterRouteV2Create exConfig exCreateReadFailsEnv exHeldData).err
      ≠ none := by
  decide

/-- C2, amended: when the fetched list `L` already contains the declared pair,
the create hook issues no update call: its calls are the lock, the client
construction and fetch of the hook, the client construction and the fetch (if
reached) of the trailing read, and the unlock, so the router's route list is
left as it was.  The hook returns what its trailing read returns, which is
success unless that read fails to construct its client or its own fetch
fails with an error other than a 404. -/
theorem create_present_is_noop (config : Config) (env : CreateEnv) (d : ResourceData)
    (L : List Route) (hclient : env.client = none) (hget : env.get = .found L)
    (hpresent : (⟨d.destination_cidr, d.next_hop⟩ : Route) ∈ L) :
    submitted (resourceNetworkingRouterRouteV2Create config env d).trace = [] ∧
    (∀ e ∈ (resourceNetworkingRouterRouteV2Create config env d).trace,
      ∀ id rts, e ≠ Event.update id rts) ∧
    (resourceNetworkingRouterRouteV2Create config env d).err
      = (resourceNetworkingRouterRouteV2Read config env.read d).err ∧
    (env.read.client = none → (∀ msg, env.read.get ≠ .failed msg) →
      (resourceNetworkingRouterRouteV2Create config env d).err = none ∧
      (resourceNetworkingRouterRouteV2Create config env d).trace
        = [Event.lock d.router_id, Event.newClient (config.GetRegion d),
           Event.get d.router_id, Event.newClient (config.GetRegion d),
           Event.get d.router_id, Event.unlock d.router_id]) := by
  have hex : routeExists d.destination_cidr d.next_hop L = true :=
    (routeExists_iff_mem _ _ _).2 hpresent
  have hsub : submitted (resourceNetworkingRouterRouteV2Create config env d).trace = [] := by
    unfold resourceNetworkingRouterRouteV2Create createBody
    simp [hclient, hget, hex, submitted, submitted_append, Outcome.after, submitted_read]
  refine ⟨hsub, ?_, ?_, ?_⟩
  · intro e he id rts heq
    subst heq
    obtain ⟨s, t, hst⟩ := List.append_of_mem he
    rw [hst, submitted_append] at hsub
    simp [submitted] at hsub
  · unfold resourceNetworkingRouterRouteV2Create createBody
    simp [hclient, hget, hex, Outcome.after]
  · intro hrc hrg
    unfold resourceNetworkingRouterRouteV2Create createBody resourceNetworkingRouterRouteV2Read
    cases hg2 : env.read.get with
    | failed msg => exact absurd hg2 (hrg msg)
    | notFound msg => simp [hclient, hget, hex, Outcome.after, hrc, hg2]
    | found L2 => simp [hclient, hget, hex, Outcome.after, hrc, hg2]

/-- Witness for C2 (amended): the declared route `exRoute` is already held by the
router, and the create hook succeeds without an update call. -/
theorem create_present_is_noop_witness :
    (⟨exHeldData.destination_cidr, exHeldData.next_hop⟩ : Route) ∈ [exRoute] ∧
    submitted (resourceNetworkingRouterRouteV2Create exConfig exCreateEnv exHeldData).trace = [] ∧
    (resourceNetworkingRouterRouteV2Create exConfig exCreateEnv exHeldData).err = none :=
  ⟨by decide,
   (create_present_is_noop exConfig exCreateEnv exHeldData [exRoute] rfl rfl (by decide)).1,
   ((create_present_is_noop exConfig exCreateEnv exHeldData [exRoute] rfl rfl
      (by decide)).2.2.2 rfl (fun _ h => GetResult.noConfusion h)).1⟩

/-! ## Route remove -/

/-- The calls of the delete hook when the router is found and some route
matched: one update with the filtered list. -/
theorem delete_submits_filtered (config : Config) (env : DeleteEnv) (d : ResourceData)
    (L : List Route) (hclient : env.client = none) (hget : env.get = .found L)
    (hpresent : (⟨d.destination_cidr, d.next_hop⟩ : Route) ∈ L) :
    (resourceNetworkingRouterRouteV2Delete config env d).trace
      = [Event.lock d.router_id, Event.newClient (config.GetRegion d), Event.get d.router_id,
         Event.update d.router_id (filterRoutes d.destination_cidr d.next_hop L),
         Event.unlock d.router_id] ∧
    (resourceNetworkingRouterRouteV2Delete config env d).err
      = env.update.map (fun e => "Error updating FlexibleEngine Neutron Router: " ++ e) := by
  have hlen : L.length ≠ (filterRoutes d.destination_cidr d.next_hop L).length := fun h =>
    (filterRoutes_length_eq_iff _ _ _).1 h hpresent
  unfold resourceNetworkingRouterRouteV2Delete deleteBody
  simp only [hclient, hget]
  cases env.update <;> simp [hlen]

/-- The calls of the delete hook when the router is found and no route
matched: no update, and the error "Route did not exist already". -/
theorem delete_of_absent (config : Config) (env : DeleteEnv) (d : ResourceData)
    (L : List Route) (hclient : env.client = none) (hget : env.get = .found L)
    (habsent : (⟨d.destination_cidr, d.next_hop⟩ : Route) ∉ L) :
    (resourceNetworkingRouterRouteV2Delete config env d).trace
      = [Event.lock d.router_id, Event.newClient (config.GetRegion d), Event.get d.router_id,
         Event.unlock d.router_id] ∧
    (resourceNetworkingRouterRouteV2Delete config env d).err
      = some "Route did not exist already" := by
  have hlen : L.length = (filterRoutes d.destination_cidr d.next_hop L).length :=
    (filterRoutes_length_eq_iff _ _ _).2 habsent
  unfold resourceNetworkingRouterRouteV2Delete deleteBody
  simp only [hclient, hget]
  simp [hlen]

/-- C3: route lists hold no pair twice (the data model's uniqueness).  When
such a fetched list `L` contains the declared pair, the delete hook issues
exactly one whole-list update; its route list contains no route equal to the
pair and its length is exactly `len(L) - 1` (one route fewer than `L`); a read
of the pair against a router holding the submitted list succeeds and reports
both attributes empty, that is, the pair absent. -/
theorem delete_removes_present_route (config : Config) (env : DeleteEnv) (d : ResourceData)
    (L : List Route) (hnodup : L.Nodup) (hclient : env.client = none)
    (hget : env.get = .found L)
    (hpresent : (⟨d.destination_cidr, d.next_hop⟩ : Route) ∈ L) :
    submitted (resourceNetworkingRouterRouteV2Delete config env d).trace
      = [filterRoutes d.destination_cidr d.next_hop L] ∧
    (⟨d.destination_cidr, d.next_hop⟩ : Route) ∉ filterRoutes d.destination_cidr d.next_hop L ∧
    (filterRoutes d.destination_cidr d.next_hop L).length = L.length - 1 ∧
    (filterRoutes d.destination_cidr d.next_hop L).length + 1 = L.length ∧
    ∀ (renv : ReadEnv) (d0 : ResourceData), renv.client = none →
      renv.get = .found (filterRoutes d.destination_cidr d.next_hop L) →
      d0.destination_cidr = d.destination_cidr → d0.next_hop = d.next_hop →
      (resourceNetworkingRouterRouteV2Read config renv d0).err = none ∧
      (resourceNetworkingRouterRouteV2Read config renv d0).d.destination_cidr = "" ∧
      (resourceNetworkingRouterRouteV2Read config renv d0).d.next_hop = "" := by
  have hcount := filterRoutes_length_add_count d.destination_cidr d.next_hop L
  have hone : L.count (⟨d.destination_cidr, d.next_hop⟩ : Route) = 1 :=
    List.count_eq_one_of_mem hnodup hpresent
  refine ⟨?_, not_mem_filterRoutes _ _ _, by omega, by omega, ?_⟩
  · rw [(delete_submits_filtered config env d L hclient hget hpresent).1]
    simp [submitted]
  · intro renv d0 hrc hrg hc0 hh0
    unfold resourceNetworkingRouterRouteV2Read
    simp only [hrc, hrg, hc0, hh0]
    rw [readLoop_of_not_mem _ _ _ _ (not_mem_filterRoutes _ _ _)]
    simp

/-- Witness for C3: the declared route `exNewRoute` is removed from a router
holding `[exRoute, exNewRoute]`; the hook submits `[exRoute]`. -/
theorem delete_removes_present_route_witness :
    ([exRoute, exNewRoute] : List Route).Nodup ∧
    (⟨exData.destination_cidr, exData.next_hop⟩ : Route) ∈ [exRoute, exNewRoute] ∧
    submitted (resourceNetworkingRouterRouteV2Delete exConfig exDeleteAfterCreateEnv exData).trace
      = [filterRoutes exData.destination_cidr exData.next_hop [exRoute, exNewRoute]] ∧
    (filterRoutes exData.destination_cidr exData.next_hop [exRoute, exNewRoute]).length
      = [exRoute, exNewRoute].length - 1 :=
  ⟨by decide, by decide,
   (delete_removes_present_route exConfig exDeleteAfterCreateEnv exData [exRoute, exNewRoute]
      (by decide) rfl rfl (by decide)).1,
   (delete_removes_present_route exConfig exDeleteAfterCreateEnv exData [exRoute, exNewRoute]
      (by decide) rfl rfl (by decide)).2.2.1⟩

/-- C4: when the router is found and the fetched list `L` holds no route
equal to the declared pair, the delete hook returns the error "Route did not
exist already" and issues no update call; and when the router is found, the
hook returns that error only if no route of `L` equals the pair. -/
theorem delete_absent_route_fails (config : Config) (env : DeleteEnv) (d : ResourceData)
    (L : List Route) (hclient : env.client = none) (hget : env.get = .found L) :
    ((⟨d.destination_cidr, d.next_hop⟩ : Route) ∉ L →
      (resourceNetworkingRouterRouteV2Delete config env d).err
        = some "Route did not exist already" ∧
      submitted (resourceNetworkingRouterRouteV2Delete config env d).trace = [] ∧
      (resourceNetworkingRouterRouteV2Delete config env d).trace
        = [Event.lock d.router_id, Event.newClient (config.GetRegion d),
           Event.get d.router_id, Event.unlock d.router_id]) ∧
    ((resourceNetworkingRouterRouteV2Delete config env d).err
        = some "Route did not exist already" →
      ∀ r ∈ L, ¬ (r.DestinationCIDR = d.destination_cidr ∧ r.NextHop = d.next_hop)) := by
  constructor
  · intro habsent
    have h := delete_of_absent config env d L hclient hget habsent
    refine ⟨h.2, ?_, h.1⟩
    rw [h.1]
    simp [submitted]
  · intro herr r hr hmatch
    have hpresent : (⟨d.destination_cidr, d.next_hop⟩ : Route) ∈ L := by
      rw [← (route_eq_iff r _ _).2 hmatch]
      exact hr
    rw [(delete_submits_filtered config env d L hclient hget hpresent).2] at herr
    cases hu : env.update with
    | none => simp [hu] at herr
    | some e =>
      simp only [hu, Option.map_some', Option.some.injEq] at herr
      exact update_error_ne_route_missing e herr

/-- Witness for C4: the declared route `exNewRoute` is not held by a router
holding `[exRoute]`, and the delete hook fails. -/
theorem delete_absent_route_fails_witness :
    (⟨exData.destination_cidr, exData.next_hop⟩ : Route) ∉ [exRoute] ∧
    (resourceNetworkingRouterRouteV2Delete exConfig exDeleteEnv exData).err
      = some "Route did not exist already" ∧
    submitted (resourceNetworkingRouterRouteV2Delete exConfig exDeleteEnv exData).trace = [] :=
  ⟨by decide,
   ((delete_absent_route_fails exConfig exDeleteEnv exData [exRoute] rfl rfl).1 (by decide)).1,
   ((delete_absent_route_fails exConfig exDeleteEnv exData [exRoute] rfl rfl).1 (by decide)).2.1⟩

/-! ## Invariants of the submitted lists -/

/-- Every list the create hook submits, when the fetched list is `L`: the pair
was not in `L`, and the list is `L` or `L` with the pair appended. -/
theorem create_submitted_cases (config : Config) (env : CreateEnv) (d : ResourceData)
    (L : List Route) (hget : env.get = .found L) (rts : List Route)
    (hrts : rts ∈ submitted (resourceNetworkingRouterRouteV2Create config env d).trace) :
    (⟨d.destination_cidr, d.next_hop⟩ : Route) ∉ L ∧
    (rts = L ++ [⟨d.destination_cidr, d.next_hop⟩] ∨ rts = L) := by
  unfold resourceNetworkingRouterRouteV2Create createBody at hrts
  cases hc : env.client with
  | some e => simp [hc, submitted] at hrts
  | none =>
    by_cases hex : routeExists d.destination_cidr d.next_hop L = true
    · simp [hc, hget, hex, submitted, submitted_append, Outcome.after, submitted_read] at hrts
    · have hex2 : routeExists d.destination_cidr d.next_hop L = false := by
        simpa using hex
      have habsent := (routeExists_eq_false_iff _ _ _).1 hex2
      refine ⟨habsent, ?_⟩
      by_cases hne : d.destination_cidr ≠ "" ∧ d.next_hop ≠ ""
      · left
        cases hu : env.update <;>
          simpa [hc, hget, hex2, hu, hne, submitted, submitted_append, Outcome.after,
            submitted_read] using hrts
      · right
        cases hu : env.update <;>
          simpa [hc, hget, hex2, hu, hne, submitted, submitted_append, Outcome.after,
            submitted_read] using hrts

/-- Every list the delete hook submits, when the fetched list is `L`, is the
result of its filter loop on `L`. -/
theorem delete_submitted_cases (config : Config) (env : DeleteEnv) (d : ResourceData)
    (L : List Route) (hget : env.get = .found L) (rts : List Route)
    (hrts : rts ∈ submitted (resourceNetworkingRouterRouteV2Delete config env d).trace) :
    rts = filterRoutes d.destination_cidr d.next_hop L := by
  unfold resourceNetworkingRouterRouteV2Delete deleteBody at hrts
  cases hc : env.client with
  | some e => simp [hc, submitted] at hrts
  | none =>
    by_cases hlen : L.length = (filterRoutes d.destination_cidr d.next_hop L).length
    · simp [hc, hget, hlen, submitted, submitted_append] at hrts
    · cases hu : env.update <;>
        simpa [hc, hget, hlen, hu, submitted, submitted_append] using hrts

/-- C5: when no two routes of the fetched list `L` have the same pair, every
list the create hook submits and every list the delete hook submits has no
two routes with the same pair either. -/
theorem reconcile_keeps_pairs_unique (config : Config) (d : ResourceData) (L : List Route)
    (hnodup : L.Nodup) :
    (∀ env : CreateEnv, env.get = .found L →
      ∀ rts ∈ submitted (resourceNetworkingRouterRouteV2Create config env d).trace,
        rts.Nodup) ∧
    (∀ env : DeleteEnv, env.get = .found L →
      ∀ rts ∈ submitted (resourceNetworkingRouterRouteV2Delete config env d).trace,
        rts.Nodup) := by
  constructor
  · intro env hget rts hrts
    obtain ⟨habsent, h | h⟩ := create_submitted_cases config env d L hget rts hrts
    · rw [h]
      exact List.Nodup.append hnodup (List.nodup_singleton _) (by simpa using habsent)
    · rw [h]
      exact hnodup
  · intro env hget rts hrts
    rw [delete_submitted_cases config env d L hget rts hrts, filterRoutes_eq_filter]
    exact hnodup.filter _

/-- Witness for C5: both hooks on a router holding the single route
`exRoute`; the create hook submits `[exRoute, exNewRoute]` and the delete
hook submits the empty list. -/
theorem reconcile_keeps_pairs_unique_witness :
    ([exRoute] : List Route).Nodup ∧
    (∀ rts ∈ submitted (resourceNetworkingRouterRouteV2Create exConfig exCreateEnv exData).trace,
      rts.Nodup) ∧
    (∀ rts ∈ submitted
        (resourceNetworkingRouterRouteV2Delete exConfig exDeleteEnv exHeldData).trace,
      rts.Nodup) :=
  ⟨by decide,
   (reconcile_keeps_pairs_unique exConfig exData [exRoute] (by decide)).1 exCreateEnv rfl,
   (reconcile_keeps_pairs_unique exConfig exHeldData [exRoute] (by decide)).2 exDeleteEnv rfl⟩

/-- C6: for every fetched list `L` and declared pair, every list the create
hook submits starts with `L` unchanged, and every list the delete hook submits
consists of exactly the routes of `L` that differ from the pair, unchanged and
in the order they have in `L`. -/
theorem reconcile_keeps_other_routes (config : Config) (d : ResourceData) (L : List Route) :
    (∀ env : CreateEnv, env.get = .found L →
      ∀ rts ∈ submitted (resourceNetworkingRouterRouteV2Create config env d).trace,
        L <+: rts) ∧
    (∀ env : DeleteEnv, env.get = .found L →
      ∀ rts ∈ submitted (resourceNetworkingRouterRouteV2Delete config env d).trace,
        rts = L.filter (fun r => decide (r ≠ (⟨d.destination_cidr, d.next_hop⟩ : Route))) ∧
        rts.Sublist L) := by
  constructor
  · intro env hget rts hrts
    obtain ⟨_, h | h⟩ := create_submitted_cases config env d L hget rts hrts
    · rw [h]
      exact List.prefix_append _ _
    · rw [h]
  · intro env hget rts hrts
    rw [delete_submitted_cases config env d L hget rts hrts, filterRoutes_eq_filter]
    exact ⟨rfl, List.filter_sublist _⟩

/-- Witness for C6: the create hook on a router holding `[exRoute]` and the
delete hook on a router holding `[exRoute, exNewRoute]`. -/
theorem reconcile_keeps_other_routes_witness :
    (∀ rts ∈ submitted (resourceNetworkingRouterRouteV2Create exConfig exCreateEnv exData).trace,
      [exRoute] <+: rts) ∧
    (∀ rts ∈ submitted
        (resourceNetworkingRouterRouteV2Delete exConfig exDeleteAfterCreateEnv exData).trace,
      rts = [exRoute, exNewRoute].filter
          (fun r => decide (r ≠ (⟨exData.destination_cidr, exData.next_hop⟩ : Route))) ∧
        rts.Sublist [exRoute, exNewRoute]) :=
  ⟨(reconcile_keeps_other_routes exConfig exData [exRoute]).1 exCreateEnv rfl,
   (reconcile_keeps_other_routes exConfig exData [exRoute, exNewRoute]).2
      exDeleteAfterCreateEnv rfl⟩

/-! ## Errors of the read hook -/

/-- C8: when the client is constructed and fetching the router yields a 404
error, the read hook clears the resource ID, changes nothing else and returns
success; when the fetch yields any other error, the hook returns a failure
and leaves the resource data, the ID included, as it was. -/
theorem read_not_found_clears_id (config : Config) (env : ReadEnv) (d : ResourceData)
    (hclient : env.client = none) :
    (∀ msg, env.get = .notFound msg →
      (resourceNetworkingRouterRouteV2Read config env d).err = none ∧
      (resourceNetworkingRouterRouteV2Read config env d).d.id = "" ∧
      (resourceNetworkingRouterRouteV2Read config env d).d = d.SetId "") ∧
    (∀ msg, env.get = .failed msg →
      (resourceNetworkingRouterRouteV2Read config env d).err
        = some ("Error retrieving FlexibleEngine Neutron Router: " ++ msg) ∧
      (resourceNetworkingRouterRouteV2Read config env d).d.id = d.id ∧
      (resourceNetworkingRouterRouteV2Read config env d).d = d) := by
  constructor
  · intro msg hget
    unfold resourceNetworkingRouterRouteV2Read
    simp [hclient, hget, ResourceData.SetId]
  · intro msg hget
    unfold resourceNetworkingRouterRouteV2Read
    simp [hclient, hget]

/-- Witness for C8: a read of a resource with a non-empty ID whose fetch is
answered with a 404. -/
theorem read_not_found_clears_id_witness :
    exHeldData.id ≠ "" ∧
    (resourceNetworkingRouterRouteV2Read exConfig exReadNotFoundEnv exHeldData).err = none ∧
    (resourceNetworkingRouterRouteV2Read exConfig exReadNotFoundEnv exHeldData).d.id = "" :=
  ⟨by decide,
   ((read_not_found_clears_id exConfig exReadNotFoundEnv exHeldData rfl).1
      "Resource not found" rfl).1,
   ((read_not_found_clears_id exConfig exReadNotFoundEnv exHeldData rfl).1
      "Resource not found" rfl).2.1⟩

/-! ## The per-router lock -/

theorem read_trace_no_locking (config : Config) (env : ReadEnv) (d : ResourceData) :
    ∀ e ∈ (resourceNetworkingRouterRouteV2Read config env d).trace, e.isLocking = false := by
  unfold resourceNetworkingRouterRouteV2Read
  cases env.client <;> cases env.get <;> simp [Event.isLocking]

theorem createBody_trace_no_locking (config : Config) (env : CreateEnv) (d : ResourceData) :
    ∀ e ∈ (createBody config env d).trace, e.isLocking = false := by
  have hread := read_trace_no_locking config env.read
  unfold createBody
  cases env.client with
  | some m => simp [Event.isLocking]
  | none =>
    cases env.get with
    | notFound m => simp [Event.isLocking]
    | failed m => simp [Event.isLocking]
    | found L =>
      simp only []
      split
      · cases env.update with
        | some m => simp [Event.isLocking]
        | none =>
          simp only [Outcome.after, List.forall_mem_append]
          exact ⟨by simp [Event.isLocking], hread _⟩
      · simp only [Outcome.after, List.forall_mem_append]
        exact ⟨by simp [Event.isLocking], hread _⟩

theorem deleteBody_trace_no_locking (config : Config) (env : DeleteEnv) (d : ResourceData) :
    ∀ e ∈ (deleteBody config env d).trace, e.isLocking = false := by
  unfold deleteBody
  cases env.client with
  | some m => simp [Event.isLocking]
  | none =>
    cases env.get with
    | notFound m => simp [Event.isLocking]
    | failed m => simp [Event.isLocking]
    | found L =>
      simp only []
      split
      · cases env.update <;> simp [Event.isLocking]
      · simp [Event.isLocking]

theorem lockDiscipline_held_append (key : String) (body rest : List Event)
    (hbody : ∀ e ∈ body, e.isLocking = false) :
    lockDiscipline key true (body ++ rest) = lockDiscipline key true rest := by
  induction body with
  | nil => rfl
  | cons e tl ih =>
    have htl : ∀ x ∈ tl, x.isLocking = false := fun x hx => hbody x (List.mem_cons_of_mem _ hx)
    have he := hbody e (List.mem_cons_self _ _)
    cases e with
    | lock k => simp [Event.isLocking] at he
    | unlock k => simp [Event.isLocking] at he
    | newClient r => simp [lockDiscipline, Event.isRemote, ih htl]
    | get r => simp [lockDiscipline, Event.isRemote, ih htl]
    | update r rts => simp [lockDiscipline, Event.isRemote, ih htl]

theorem lockDiscipline_of_bracket (key : String) (body : List Event)
    (hbody : ∀ e ∈ body, e.isLocking = false) :
    lockDiscipline key false (Event.lock key :: (body ++ [Event.unlock key])) = some false := by
  simp [lockDiscipline, lockDiscipline_held_append key body _ hbody]

theorem count_of_bracket (key : String) (body : List Event)
    (hbody : ∀ e ∈ body, e.isLocking = false) :
    (Event.lock key :: (body ++ [Event.unlock key])).count (Event.lock key) = 1 ∧
    (Event.lock key :: (body ++ [Event.unlock key])).count (Event.unlock key) = 1 := by
  have hl : body.count (Event.lock key) = 0 :=
    List.count_eq_zero.2 (fun hm => by simpa [Event.isLocking] using hbody _ hm)
  have hu : body.count (Event.unlock key) = 0 :=
    List.count_eq_zero.2 (fun hm => by simpa [Event.isLocking] using hbody _ hm)
  simp [List.count_cons, List.count_append, hl, hu]

/-- C9: in every run of the route create hook and of the route delete hook,
whatever the calls return, the trace is the lock on the router identifier,
then calls none of which takes or releases a lock, then the unlock on the
router identifier.  So the lock is taken before the first call, released
exactly once after the last one, and replaying the trace against the lock
never meets a fetch or update while the lock is not held. -/
theorem lock_covers_read_modify_write (config : Config) (d : ResourceData) :
    (∀ env : CreateEnv, ∃ body : List Event,
      (resourceNetworkingRouterRouteV2Create config env d).trace
        = Event.lock d.router_id :: (body ++ [Event.unlock d.router_id]) ∧
      (∀ e ∈ body, e.isLocking = false) ∧
      (∀ e ∈ (resourceNetworkingRouterRouteV2Create config env d).trace,
        e.isRemote = true → e ∈ body) ∧
      lockDiscipline d.router_id false
        (resourceNetworkingRouterRouteV2Create config env d).trace = some false ∧
      (resourceNetworkingRouterRouteV2Create config env d).trace.count
        (Event.lock d.router_id) = 1 ∧
      (resourceNetworkingRouterRouteV2Create config env d).trace.count
        (Event.unlock d.router_id) = 1) ∧
    (∀ env : DeleteEnv, ∃ body : List Event,
      (resourceNetworkingRouterRouteV2Delete config env d).trace
        = Event.lock d.router_id :: (body ++ [Event.unlock d.router_id]) ∧
      (∀ e ∈ body, e.isLocking = false) ∧
      (∀ e ∈ (resourceNetworkingRouterRouteV2Delete config env d).trace,
        e.isRemote = true → e ∈ body) ∧
      lockDiscipline d.router_id false
        (resourceNetworkingRouterRouteV2Delete config env d).trace = some false ∧
      (resourceNetworkingRouterRouteV2Delete config env d).trace.count
        (Event.lock d.router_id) = 1 ∧
      (resourceNetworkingRouterRouteV2Delete config env d).trace.count
        (Event.unlock d.router_id) = 1) := by
  constructor
  · intro env
    have hbody := createBody_trace_no_locking config env d
    refine ⟨(createBody config env d).trace, ?_, hbody, ?_, ?_, ?_⟩
    · simp [resourceNetworkingRouterRouteV2Create]
    · intro e he hrem
      simp only [resourceNetworkingRouterRouteV2Create, List.cons_append, List.nil_append,
        List.mem_cons, List.mem_append, List.mem_singleton, List.not_mem_nil, or_false] at he
      rcases he with h | h | h
      · simp [h, Event.isRemote] at hrem
      · exact h
      · simp [h, Event.isRemote] at hrem
    · have h := lockDiscipline_of_bracket d.router_id _ hbody
      simpa [resourceNetworkingRouterRouteV2Create] using h
    · have h := count_of_bracket d.router_id _ hbody
      simpa [resourceNetworkingRouterRouteV2Create] using h
  · intro env
    have hbody := deleteBody_trace_no_locking config env d
    refine ⟨(deleteBody config env d).trace, ?_, hbody, ?_, ?_, ?_⟩
    · simp [resourceNetworkingRouterRouteV2Delete]
    · intro e he hrem
      simp only [resourceNetworkingRouterRouteV2Delete, List.cons_append, List.nil_append,
        List.mem_cons, List.mem_append, List.mem_singleton, List.not_mem_nil, or_false] at he
      rcases he with h | h | h
      · simp [h, Event.isRemote] at hrem
      · exact h
      · simp [h, Event.isRemote] at hrem
    · have h := lockDiscipline_of_bracket d.router_id _ hbody
      simpa [resourceNetworkingRouterRouteV2Delete] using h
    · have h := count_of_bracket d.router_id _ hbody
      simpa [resourceNetworkingRouterRouteV2Delete] using h

/-! ## Add followed by remove -/

/-- C10: when the fetched list `L` does not contain the declared pair and both
attributes are non-empty, the create hook submits `L` with the pair appended;
the filter loop of the delete hook for the same pair turns that list back into
`L`, same routes in the same order; and a delete run against a router holding
that list submits exactly `L`, does not return "Route did not exist already",
and returns success when its update call succeeds. -/
theorem add_then_remove_round_trip (config : Config) (cenv : CreateEnv) (denv : DeleteEnv)
    (d d0 : ResourceData) (L : List Route)
    (habsent : (⟨d.destination_cidr, d.next_hop⟩ : Route) ∉ L)
    (hcidr : d.destination_cidr ≠ "") (hhop : d.next_hop ≠ "")
    (hcclient : cenv.client = none) (hcget : cenv.get = .found L)
    (hd0c : d0.destination_cidr = d.destination_cidr) (hd0h : d0.next_hop = d.next_hop)
    (hdclient : denv.client = none)
    (hdget : denv.get = .found (L ++ [⟨d.destination_cidr, d.next_hop⟩])) :
    submitted (resourceNetworkingRouterRouteV2Create config cenv d).trace
      = [L ++ [⟨d.destination_cidr, d.next_hop⟩]] ∧
    filterRoutes d.destination_cidr d.next_hop (L ++ [⟨d.destination_cidr, d.next_hop⟩]) = L ∧
    submitted (resourceNetworkingRouterRouteV2Delete config denv d0).trace = [L] ∧
    (resourceNetworkingRouterRouteV2Delete config denv d0).err
      ≠ some "Route did not exist already" ∧
    (denv.update = none → (resourceNetworkingRouterRouteV2Delete config denv d0).err = none) := by
  have hfilter : filterRoutes d.destination_cidr d.next_hop
      (L ++ [⟨d.destination_cidr, d.next_hop⟩]) = L := by
    have hL := filterRoutes_of_not_mem _ _ L habsent
    rw [filterRoutes_eq_filter] at hL ⊢
    rw [List.filter_append, hL]
    simp
  have hin : (⟨d0.destination_cidr, d0.next_hop⟩ : Route)
      ∈ L ++ [⟨d.destination_cidr, d.next_hop⟩] := by
    rw [hd0c, hd0h]
    simp
  have hdel := delete_submits_filtered config denv d0 _ hdclient hdget hin
  rw [hd0c, hd0h, hfilter] at hdel
  refine ⟨create_submitted_of_absent config cenv d L hcclient hcget habsent hcidr hhop,
    hfilter, ?_, ?_, ?_⟩
  · rw [hdel.1]
    simp [submitted]
  · rw [hdel.2]
    cases hu : denv.update with
    | none => simp
    | some e =>
      simp only [Option.map_some', ne_eq, Option.some.injEq]
      exact update_error_ne_route_missing e
  · intro hu
    rw [hdel.2, hu]
    rfl

/-- Witness for C10: `exNewRoute` is added to a router holding `[exRoute]`
and then removed from a router holding `[exRoute, exNewRoute]`. -/
theorem add_then_remove_round_trip_witness :
    (⟨exData.destination_cidr, exData.next_hop⟩ : Route) ∉ [exRoute] ∧
    submitted (resourceNetworkingRouterRouteV2Create exConfig exCreateEnv exData).trace
      = [[exRoute] ++ [⟨exData.destination_cidr, exData.next_hop⟩]] ∧
    submitted (resourceNetworkingRouterRouteV2Delete exConfig exDeleteAfterCreateEnv exData).trace
      = [[exRoute]] ∧
    (resourceNetworkingRouterRouteV2Delete exConfig exDeleteAfterCreateEnv exData).err = none :=
  ⟨by decide,
   (add_then_remove_round_trip exConfig exCreateEnv exDeleteAfterCreateEnv exData exData
      [exRoute] (by decide) (by decide) (by decide) rfl rfl rfl rfl rfl rfl).1,
   (add_then_remove_round_trip exConfig exCreateEnv exDeleteAfterCreateEnv exData exData
      [exRoute] (by decide) (by decide) (by decide) rfl rfl rfl rfl rfl rfl).2.2.1,
   (add_then_remove_round_trip exConfig exCreateEnv exDeleteAfterCreateEnv exData exData
      [exRoute] (by decide) (by decide) (by decide) rfl rfl rfl rfl rfl rfl).2.2.2.2 rfl⟩

end RouterRoute

namespace LoadBalancer

/-! ## Errors of the mutating calls -/

/-- The update hook returns the same result whatever `resource.Retry`
returned for the update call. -/
theorem update_result_ignores_retry (env : UpdateEnv) (d : ResourceData)
    (retryErr : Option String) :
    resourceLoadBalancerV2Update { env with retryUpdate := retryErr } d
      = resourceLoadBalancerV2Update env d := by
  rfl

/-- The delete hook returns the same result whatever `resource.Retry`
returned for the delete call. -/
theorem delete_result_ignores_retry (env : DeleteEnv) (d : ResourceData)
    (retryErr : Option String) :
    resourceLoadBalancerV2Delete { env with retryDelete := retryErr } d
      = resourceLoadBalancerV2Delete env d := by
  rfl

/-- C7 fails on the code: the update call ends in an error after the retry
wrapper, the poller then finds the load balancer ACTIVE, and the update hook
returns success; the delete call ends in an error after the retry wrapper,
the poller then reports the load balancer gone, and the delete hook returns
success. -/
theorem retry_error_is_dropped :
    exUpdateEnv.retryUpdate ≠ none ∧
    resourceLoadBalancerV2Update exUpdateEnv exData = none ∧
    exDeleteEnv.retryDelete ≠ none ∧
    resourceLoadBalancerV2Delete exDeleteEnv exData = none := by
  decide

end LoadBalancer
